import Mathlib

/-!
NTFS volume handling: `ntfs/volume.h`

A shallow embedding of the exports of `volume.h`: the mount flag constants,
the `ntfs_mount_flags` and `ntfs_volume_state_bits` enumerations, the
`NVol*` state-flag accessors, the `NTFS_V*` version-family predicates and the
fields of `struct _ntfs_volume` they act on.

C integers are embedded as `Nat`.  `unsigned long` is 32 bits wide on the
Windows targets this header is compiled for (it includes `windows.h`).
-/

namespace NtfsVolume

/-! ## Mount flags (volume.h:28-47) -/

/-- A definition of a flag name that the platform headers supply before
`volume.h` is read.  The preprocessor and the compiler can see different
values: inside `#if` the name is expanded and any identifier that remains
counts as 0, so `ppValue` is what `#if` computes and `cValue` is what the
name denotes in C code.  An integer-literal definition (`#define MS_RDONLY 4`)
has both equal; an enumerator with a self-named definition
(`enum { MS_RDONLY = 1 };` with `#define MS_RDONLY MS_RDONLY`) has
`ppValue = 0` and `cValue = 1`. -/
structure PlatformDef where
  ppValue : Nat
  cValue : Nat
  deriving DecidableEq

/-- Lines 32-34, the value in C code: `MS_RDONLY` keeps the platform's
definition when there is one (`#ifndef MS_RDONLY` fails) and is `1`
otherwise. -/
def MS_RDONLY (platform : Option PlatformDef) : Nat :=
  match platform with
  | some m => m.cValue
  | none => 1

/-- Lines 32-34, the value inside `#if`: what the preprocessor computes for
`MS_RDONLY` at line 40.  With the header's own `#define MS_RDONLY 1` it
is 1. -/
def MS_RDONLY_pp (platform : Option PlatformDef) : Nat :=
  match platform with
  | some m => m.ppValue
  | none => 1

/-- Lines 39-45: `MS_NOATIME` keeps the platform's definition when there is
one; otherwise the preprocessor evaluates `#if (MS_RDONLY != 1)` and the
header defines `MS_NOATIME` as `1` when the test holds and as `2` when it
does not. -/
def MS_NOATIME (platformRdonly platformNoatime : Option PlatformDef) : Nat :=
  match platformNoatime with
  | some m => m.cValue
  | none => if MS_RDONLY_pp platformRdonly != 1 then 1 else 2

/-- Line 47: `#define MS_EXCLUSIVE 0x08000000`. -/
def MS_EXCLUSIVE : Nat := 0x08000000

/-! ## `enum ntfs_mount_flags` (volume.h:63-67) -/

/-- Device is mounted. -/
def NTFS_MF_MOUNTED : Nat := 1
/-- Device is mounted as system root. -/
def NTFS_MF_ISROOT : Nat := 2
/-- Device is mounted read-only. -/
def NTFS_MF_READONLY : Nat := 4

/-! ## `enum ntfs_volume_state_bits` (volume.h:76-81) -/

/-- The four defined bits of the `state` field. -/
inductive ntfs_volume_state_bits where
  | NV_ReadOnly
  | NV_CaseSensitive
  | NV_LogFileEmpty
  | NV_NoATime
  deriving DecidableEq

/-- The integer value of an enumerator: a C enum without initialisers counts
from zero in declaration order. -/
def ntfs_volume_state_bits.val : ntfs_volume_state_bits → Nat
  | .NV_ReadOnly => 0
  | .NV_CaseSensitive => 1
  | .NV_LogFileEmpty => 2
  | .NV_NoATime => 3

/-! ## Version families (volume.h:110-114) -/

/-- Line 110: `#define NTFS_V1_1(major, minor) ((major) == 1 && (minor) == 1)` -/
def NTFS_V1_1 (major minor : Nat) : Bool := major == 1 && minor == 1
/-- Line 111: `#define NTFS_V1_2(major, minor) ((major) == 1 && (minor) == 2)` -/
def NTFS_V1_2 (major minor : Nat) : Bool := major == 1 && minor == 2
/-- Line 112: `#define NTFS_V2_X(major, minor) ((major) == 2)`: the minor is ignored. -/
def NTFS_V2_X (major _minor : Nat) : Bool := major == 2
/-- Line 113: `#define NTFS_V3_0(major, minor) ((major) == 3 && (minor) == 0)` -/
def NTFS_V3_0 (major minor : Nat) : Bool := major == 3 && minor == 0
/-- Line 114: `#define NTFS_V3_1(major, minor) ((major) == 3 && (minor) == 1)` -/
def NTFS_V3_1 (major minor : Nat) : Bool := major == 3 && minor == 1

/-- Line 116. -/
def NTFS_BUF_SIZE : Nat := 8192

/-! ## `struct _ntfs_volume` (volume.h:121-193)

The scalar fields the exported macros read or write.  The pointer members
(device, inodes, attributes, tables) and the geometry and allocator fields
are not touched by anything defined in this header and are left out. -/

/-- Width of `unsigned long`, the type of the `state` field. -/
def ULONG_BITS : Nat := 32

/-- The volume record: `state` is an `unsigned long`, the versions are `u8`
and `flags` is a `u16`.  The theorems below hold for every natural number in
these fields, in particular for every value of the machine types. -/
structure ntfs_volume where
  state : Nat
  major_ver : Nat
  minor_ver : Nat
  flags : Nat
  deriving DecidableEq

/-! ## Bit primitives (`support.h`, included at volume.h:53) -/

/-- Modelled from the spec: `test_bit` is defined in `support.h`, which is
not part of the sources at hand.  The spec describes the accessors as
"bit-flag test/set/clear macros over a packed flag word"; `test_bit(bit, var)`
is true when bit number `bit` of the word `var` is set. -/
def test_bit (bit var : Nat) : Bool := var &&& (1 <<< bit) != 0

/-- Modelled from the spec: `set_bit` is defined in `support.h`, which is not
part of the sources at hand.  `set_bit(bit, var)` ORs the mask `1 << bit`
into the `unsigned long` word `var`. -/
def set_bit (bit var : Nat) : Nat := (var ||| (1 <<< bit)) % 2 ^ ULONG_BITS

/-- Modelled from the spec: `clear_bit` is defined in `support.h`, which is
not part of the sources at hand.  `clear_bit(bit, var)` ANDs the `unsigned
long` word `var` with the complement of the mask `1 << bit`. -/
def clear_bit (bit var : Nat) : Nat :=
  var &&& ((2 ^ ULONG_BITS - 1) ^^^ (1 <<< bit))

/-! ## State-flag accessors (volume.h:83-101) -/

/-- Line 83: `#define test_nvol_flag(nv, flag) test_bit(NV_##flag, (nv)->state)` -/
def test_nvol_flag (nv : ntfs_volume) (flag : ntfs_volume_state_bits) : Bool :=
  test_bit flag.val nv.state

/-- Line 84: `#define set_nvol_flag(nv, flag) set_bit(NV_##flag, (nv)->state)`: the
macro assigns to `nv->state`; the updated volume is returned. -/
def set_nvol_flag (nv : ntfs_volume) (flag : ntfs_volume_state_bits) :
    ntfs_volume :=
  { nv with state := set_bit flag.val nv.state }

/-- Line 85: `#define clear_nvol_flag(nv, flag) clear_bit(NV_##flag, (nv)->state)`:
the macro assigns to `nv->state`; the updated volume is returned. -/
def clear_nvol_flag (nv : ntfs_volume) (flag : ntfs_volume_state_bits) :
    ntfs_volume :=
  { nv with state := clear_bit flag.val nv.state }

/-- Line 87. -/
def NVolReadOnly (nv : ntfs_volume) : Bool := test_nvol_flag nv .NV_ReadOnly
/-- Line 88. -/
def NVolSetReadOnly (nv : ntfs_volume) : ntfs_volume :=
  set_nvol_flag nv .NV_ReadOnly
/-- Line 89. -/
def NVolClearReadOnly (nv : ntfs_volume) : ntfs_volume :=
  clear_nvol_flag nv .NV_ReadOnly

/-- Line 91. -/
def NVolCaseSensitive (nv : ntfs_volume) : Bool :=
  test_nvol_flag nv .NV_CaseSensitive
/-- Line 92. -/
def NVolSetCaseSensitive (nv : ntfs_volume) : ntfs_volume :=
  set_nvol_flag nv .NV_CaseSensitive
/-- Line 93. -/
def NVolClearCaseSensitive (nv : ntfs_volume) : ntfs_volume :=
  clear_nvol_flag nv .NV_CaseSensitive

/-- Line 95. -/
def NVolLogFileEmpty (nv : ntfs_volume) : Bool :=
  test_nvol_flag nv .NV_LogFileEmpty
/-- Line 96. -/
def NVolSetLogFileEmpty (nv : ntfs_volume) : ntfs_volume :=
  set_nvol_flag nv .NV_LogFileEmpty
/-- Line 97. -/
def NVolClearLogFileEmpty (nv : ntfs_volume) : ntfs_volume :=
  clear_nvol_flag nv .NV_LogFileEmpty

/-- Line 99. -/
def NVolNoATime (nv : ntfs_volume) : Bool := test_nvol_flag nv .NV_NoATime
/-- Line 100. -/
def NVolSetNoATime (nv : ntfs_volume) : ntfs_volume :=
  set_nvol_flag nv .NV_NoATime
/-- Line 101. -/
def NVolClearNoATime (nv : ntfs_volume) : ntfs_volume :=
  clear_nvol_flag nv .NV_NoATime

/-- The test accessor `NVolF` named after flag `F`. -/
def NVol : ntfs_volume_state_bits → ntfs_volume → Bool
  | .NV_ReadOnly => NVolReadOnly
  | .NV_CaseSensitive => NVolCaseSensitive
  | .NV_LogFileEmpty => NVolLogFileEmpty
  | .NV_NoATime => NVolNoATime

/-- The accessor `NVolSetF` named after flag `F`. -/
def NVolSet : ntfs_volume_state_bits → ntfs_volume → ntfs_volume
  | .NV_ReadOnly => NVolSetReadOnly
  | .NV_CaseSensitive => NVolSetCaseSensitive
  | .NV_LogFileEmpty => NVolSetLogFileEmpty
  | .NV_NoATime => NVolSetNoATime

/-- The accessor `NVolClearF` named after flag `F`. -/
def NVolClear : ntfs_volume_state_bits → ntfs_volume → ntfs_volume
  | .NV_ReadOnly => NVolClearReadOnly
  | .NV_CaseSensitive => NVolClearCaseSensitive
  | .NV_LogFileEmpty => NVolClearLogFileEmpty
  | .NV_NoATime => NVolClearNoATime

/-! ## Journal reset (declared at volume.h:208) -/

/-- Modelled from the spec: the error kinds of section 7 (the header itself
only declares `int` results). -/
inductive VolumeError where
  | FormatError
  | VersionUnsupported
  | DeviceError
  | NoSpace
  | ReadOnlyViolation
  | Busy
  deriving DecidableEq

/-- Outcome of a journal reset: the result code, the volume record afterwards
and the bytes of the `$LogFile` stream afterwards. -/
structure LogFileReset where
  result : Except VolumeError Unit
  vol : ntfs_volume
  logfile : List Nat

/-- Modelled from the spec: `ntfs_logfile_reset` is only declared in
`volume.h`; its body is not part of the sources at hand.  Section 4.5: it
"fails if the volume is read-only; otherwise overwrites $LogFile content with
a format-defined clean marker and sets the log-file-empty flag"; section 7
names the failure `ReadOnlyViolation`.  The `$LogFile` stream, which the code
reaches through the inode and attribute layers, is passed as `logfile`, and
the format-defined marker as `clean`. -/
def ntfs_logfile_reset (clean : List Nat) (vol : ntfs_volume) (logfile : List Nat) :
    LogFileReset :=
  if NVolReadOnly vol then
    { result := .error .ReadOnlyViolation, vol := vol, logfile := logfile }
  else
    { result := .ok (), vol := NVolSetLogFileEmpty vol, logfile := clean }

/-! ## Sequences of state-flag updates -/

/-- One update of the state word: an `NVolSetF` or an `NVolClearF`. -/
inductive NVolOp where
  | set (flag : ntfs_volume_state_bits)
  | clear (flag : ntfs_volume_state_bits)
  deriving DecidableEq

/-- Perform one update on a volume. -/
def NVolOp.apply : NVolOp → ntfs_volume → ntfs_volume
  | .set flag, nv => NVolSet flag nv
  | .clear flag, nv => NVolClear flag nv

/-- Perform a sequence of updates, first element first. -/
def NVolOp.run (ops : List NVolOp) (nv : ntfs_volume) : ntfs_volume :=
  ops.foldl (fun v op => op.apply v) nv

/-! ## Bit-level lemmas -/

theorem test_bit_eq_testBit (bit var : Nat) : test_bit bit var = var.testBit bit := by
  unfold test_bit
  rw [Nat.one_shiftLeft, Nat.and_two_pow]
  cases h : var.testBit bit
  · simp
  · have : (2 : Nat) ^ bit ≠ 0 := Nat.pos_iff_ne_zero.mp (Nat.two_pow_pos bit)
    simp [this]

theorem testBit_set_bit (bit var i : Nat) :
    (set_bit bit var).testBit i =
      (decide (i < ULONG_BITS) && (var.testBit i || decide (bit = i))) := by
  unfold set_bit
  rw [Nat.testBit_mod_two_pow, Nat.testBit_or, Nat.one_shiftLeft, Nat.testBit_two_pow]

theorem testBit_clear_bit (bit var i : Nat) :
    (clear_bit bit var).testBit i =
      (var.testBit i && (decide (i < ULONG_BITS) ^^ decide (bit = i))) := by
  unfold clear_bit
  rw [Nat.testBit_and, Nat.testBit_xor, Nat.testBit_two_pow_sub_one, Nat.one_shiftLeft,
    Nat.testBit_two_pow]

theorem val_lt_ULONG_BITS (flag : ntfs_volume_state_bits) : flag.val < ULONG_BITS := by
  cases flag <;> decide

theorem val_injective {F G : ntfs_volume_state_bits} (h : F.val = G.val) : F = G := by
  cases F <;> cases G <;> first | rfl | (exact absurd h (by decide))

theorem NVol_eq (F : ntfs_volume_state_bits) (nv : ntfs_volume) :
    NVol F nv = test_nvol_flag nv F := by
  cases F <;> rfl

theorem NVolSet_eq (F : ntfs_volume_state_bits) (nv : ntfs_volume) :
    NVolSet F nv = set_nvol_flag nv F := by
  cases F <;> rfl

theorem NVolClear_eq (F : ntfs_volume_state_bits) (nv : ntfs_volume) :
    NVolClear F nv = clear_nvol_flag nv F := by
  cases F <;> rfl

theorem set_bit_lt_16 (F : ntfs_volume_state_bits) (s : Nat) (h : s < 16) :
    set_bit F.val s < 16 := by
  cases F <;> interval_cases s <;> decide

theorem clear_bit_lt_16 (F : ntfs_volume_state_bits) (s : Nat) (h : s < 16) :
    clear_bit F.val s < 16 := by
  cases F <;> interval_cases s <;> decide

theorem run_state_lt_16 (ops : List NVolOp) (nv : ntfs_volume) (h : nv.state < 16) :
    (NVolOp.run ops nv).state < 16 := by
  induction ops generalizing nv with
  | nil => exact h
  | cons op rest ih =>
    have step : (op.apply nv).state < 16 := by
      cases op with
      | set F => simpa [NVolOp.apply, NVolSet_eq, set_nvol_flag] using set_bit_lt_16 F _ h
      | clear F =>
        simpa [NVolOp.apply, NVolClear_eq, clear_nvol_flag] using clear_bit_lt_16 F _ h
    exact ih (op.apply nv) step

theorem state_eq_sum_of_lt_16 (s : Nat) (h : s < 16) :
    s = (if test_bit 0 s then 2 ^ 0 else 0) + (if test_bit 1 s then 2 ^ 1 else 0) +
      (if test_bit 2 s then 2 ^ 2 else 0) + (if test_bit 3 s then 2 ^ 3 else 0) := by
  interval_cases s <;> decide

theorem test_after_set_nvol_flag (nv : ntfs_volume) (F : ntfs_volume_state_bits) :
    test_nvol_flag (set_nvol_flag nv F) F = true := by
  have hF := val_lt_ULONG_BITS F
  simp [test_nvol_flag, set_nvol_flag, test_bit_eq_testBit, testBit_set_bit, hF]

/-! ## Theorems: version families -/

/-- C1: the disjunction of the five family macros, applied to the `major_ver`
and `minor_ver` of a volume, is true for the versions 1.1, 1.2, 2.0, 2.5, 3.0
and 3.1 and false for 4.0 and 0.9, whatever the other fields hold. -/
theorem version_families_sample_pairs (state flags : Nat) :
    List.map
      (fun (vol : ntfs_volume) =>
        NTFS_V1_1 vol.major_ver vol.minor_ver || NTFS_V1_2 vol.major_ver vol.minor_ver
          || NTFS_V2_X vol.major_ver vol.minor_ver || NTFS_V3_0 vol.major_ver vol.minor_ver
          || NTFS_V3_1 vol.major_ver vol.minor_ver)
      [{ state := state, major_ver := 1, minor_ver := 1, flags := flags },
       { state := state, major_ver := 1, minor_ver := 2, flags := flags },
       { state := state, major_ver := 2, minor_ver := 0, flags := flags },
       { state := state, major_ver := 2, minor_ver := 5, flags := flags },
       { state := state, major_ver := 3, minor_ver := 0, flags := flags },
       { state := state, major_ver := 3, minor_ver := 1, flags := flags },
       { state := state, major_ver := 4, minor_ver := 0, flags := flags },
       { state := state, major_ver := 0, minor_ver := 9, flags := flags }] =
      [true, true, true, true, true, true, false, false] := by
  simp only [List.map]
  rfl

/-- C2: for 8-bit `major` and `minor`, the disjunction of the five family
macros holds exactly for 1.1, 1.2, any 2.x, 3.0 and 3.1; `NTFS_V2_X` accepts
major 2 with every minor, and a pair outside the families is rejected by all
five macros. -/
theorem version_families_characterised (major minor : Nat)
    (hmajor : major < 2 ^ 8) (hminor : minor < 2 ^ 8) :
    ((NTFS_V1_1 major minor || NTFS_V1_2 major minor || NTFS_V2_X major minor
        || NTFS_V3_0 major minor || NTFS_V3_1 major minor) = true ↔
      ((major = 1 ∧ (minor = 1 ∨ minor = 2)) ∨ major = 2 ∨
        (major = 3 ∧ (minor = 0 ∨ minor = 1)))) ∧
    NTFS_V2_X 2 minor = true ∧
    ((NTFS_V1_1 major minor = false ∧ NTFS_V1_2 major minor = false ∧
        NTFS_V2_X major minor = false ∧ NTFS_V3_0 major minor = false ∧
        NTFS_V3_1 major minor = false) ↔
      ¬ ((major = 1 ∧ (minor = 1 ∨ minor = 2)) ∨ major = 2 ∨
        (major = 3 ∧ (minor = 0 ∨ minor = 1)))) := by
  have _ := hmajor
  have _ := hminor
  refine ⟨?_, ?_, ?_⟩
  · simp only [NTFS_V1_1, NTFS_V1_2, NTFS_V2_X, NTFS_V3_0, NTFS_V3_1, Bool.or_eq_true,
      Bool.and_eq_true, beq_iff_eq]
    omega
  · simp [NTFS_V2_X]
  · simp only [NTFS_V1_1, NTFS_V1_2, NTFS_V2_X, NTFS_V3_0, NTFS_V3_1, Bool.and_eq_false_iff,
      beq_eq_false_iff_ne, ne_eq]
    omega

/-- Witness for C2 at version 2.5. -/
theorem version_families_characterised_witness :
    ((NTFS_V1_1 2 5 || NTFS_V1_2 2 5 || NTFS_V2_X 2 5
        || NTFS_V3_0 2 5 || NTFS_V3_1 2 5) = true ↔
      (((2 : Nat) = 1 ∧ ((5 : Nat) = 1 ∨ (5 : Nat) = 2)) ∨ (2 : Nat) = 2 ∨
        ((2 : Nat) = 3 ∧ ((5 : Nat) = 0 ∨ (5 : Nat) = 1)))) ∧
    NTFS_V2_X 2 5 = true ∧
    ((NTFS_V1_1 2 5 = false ∧ NTFS_V1_2 2 5 = false ∧
        NTFS_V2_X 2 5 = false ∧ NTFS_V3_0 2 5 = false ∧
        NTFS_V3_1 2 5 = false) ↔
      ¬ (((2 : Nat) = 1 ∧ ((5 : Nat) = 1 ∨ (5 : Nat) = 2)) ∨ (2 : Nat) = 2 ∨
        ((2 : Nat) = 3 ∧ ((5 : Nat) = 0 ∨ (5 : Nat) = 1)))) :=
  version_families_characterised 2 5 (by decide) (by decide)

/-- C8: at most one of the five family macros is true of a version pair: the
number of true macros is 1 when their disjunction holds and 0 otherwise. -/
theorem version_families_exclusive (major minor : Nat) :
    [NTFS_V1_1 major minor, NTFS_V1_2 major minor, NTFS_V2_X major minor,
        NTFS_V3_0 major minor, NTFS_V3_1 major minor].count true ≤ 1 ∧
    [NTFS_V1_1 major minor, NTFS_V1_2 major minor, NTFS_V2_X major minor,
        NTFS_V3_0 major minor, NTFS_V3_1 major minor].count true =
      (if (NTFS_V1_1 major minor || NTFS_V1_2 major minor || NTFS_V2_X major minor
        || NTFS_V3_0 major minor || NTFS_V3_1 major minor) = true then 1 else 0) := by
  by_cases h1 : major = 1 <;> by_cases h2 : major = 2 <;> by_cases h3 : major = 3 <;>
    by_cases m0 : minor = 0 <;> by_cases m1 : minor = 1 <;> by_cases m2 : minor = 2 <;>
    first
      | omega
      | simp [NTFS_V1_1, NTFS_V1_2, NTFS_V2_X, NTFS_V3_0, NTFS_V3_1, h1, h2, h3, m0, m1, m2]

/-! ## Theorems: mount flags and mount-check flags -/

/-- C5: with the header's own definitions the three mount flags are 1, 2 and
0x08000000; they are non-zero and pairwise disjoint, the OR of any subset has
a flag's bit set exactly when the flag is in the subset, and two subsets give
the same word only when they are the same subset. -/
theorem mount_flags_combinable :
    (MS_RDONLY none = 1 ∧ MS_NOATIME none none = 2 ∧ MS_EXCLUSIVE = 0x08000000) ∧
    (MS_RDONLY none ≠ 0 ∧ MS_NOATIME none none ≠ 0 ∧ MS_EXCLUSIVE ≠ 0) ∧
    (MS_RDONLY none &&& MS_NOATIME none none = 0 ∧
      MS_RDONLY none &&& MS_EXCLUSIVE = 0 ∧
      MS_NOATIME none none &&& MS_EXCLUSIVE = 0) ∧
    (∀ a b c : Bool,
      (((if a then MS_RDONLY none else 0) ||| (if b then MS_NOATIME none none else 0)
          ||| (if c then MS_EXCLUSIVE else 0))
          &&& MS_RDONLY none != 0) = a ∧
      (((if a then MS_RDONLY none else 0) ||| (if b then MS_NOATIME none none else 0)
          ||| (if c then MS_EXCLUSIVE else 0))
          &&& MS_NOATIME none none != 0) = b ∧
      (((if a then MS_RDONLY none else 0) ||| (if b then MS_NOATIME none none else 0)
          ||| (if c then MS_EXCLUSIVE else 0))
          &&& MS_EXCLUSIVE != 0) = c) ∧
    (∀ a b c x y z : Bool,
      ((if a then MS_RDONLY none else 0) ||| (if b then MS_NOATIME none none else 0)
          ||| (if c then MS_EXCLUSIVE else 0)) =
        ((if x then MS_RDONLY none else 0) ||| (if y then MS_NOATIME none none else 0)
          ||| (if z then MS_EXCLUSIVE else 0)) ↔
      (a = x ∧ b = y ∧ c = z)) := by
  refine ⟨⟨rfl, rfl, rfl⟩, ⟨by decide, by decide, by decide⟩,
    ⟨by decide, by decide, by decide⟩, ?_, ?_⟩
  · intro a b c
    cases a <;> cases b <;> cases c <;> decide
  · intro a b c x y z
    cases a <;> cases b <;> cases c <;> cases x <;> cases y <;> cases z <;> decide

/-- C6: the flags reported by `ntfs_check_if_mounted` are the single bits
0, 1 and 2, pairwise distinct, and the word built by OR-ing the masks of the
true members of a triple (mounted, is_root, read_only) decodes, by testing
each mask, to the same triple. -/
theorem mounted_flags_roundtrip :
    (NTFS_MF_MOUNTED = 2 ^ 0 ∧ NTFS_MF_ISROOT = 2 ^ 1 ∧ NTFS_MF_READONLY = 2 ^ 2) ∧
    (NTFS_MF_MOUNTED ≠ NTFS_MF_ISROOT ∧ NTFS_MF_MOUNTED ≠ NTFS_MF_READONLY ∧
      NTFS_MF_ISROOT ≠ NTFS_MF_READONLY) ∧
    (∀ mounted is_root read_only : Bool,
      (((if mounted then NTFS_MF_MOUNTED else 0) ||| (if is_root then NTFS_MF_ISROOT else 0)
          ||| (if read_only then NTFS_MF_READONLY else 0))
          &&& NTFS_MF_MOUNTED != 0) = mounted ∧
      (((if mounted then NTFS_MF_MOUNTED else 0) ||| (if is_root then NTFS_MF_ISROOT else 0)
          ||| (if read_only then NTFS_MF_READONLY else 0))
          &&& NTFS_MF_ISROOT != 0) = is_root ∧
      (((if mounted then NTFS_MF_MOUNTED else 0) ||| (if is_root then NTFS_MF_ISROOT else 0)
          ||| (if read_only then NTFS_MF_READONLY else 0))
          &&& NTFS_MF_READONLY != 0) = read_only) := by
  refine ⟨⟨rfl, rfl, rfl⟩, ⟨by decide, by decide, by decide⟩, ?_⟩
  intro a b c
  cases a <;> cases b <;> cases c <;> decide

/-- C3: the four state flags are independent: for two different flags F and
G, neither `NVolSetF` nor `NVolClearF` changes the result of the test
`NVolG`, for every state word. -/
theorem state_flags_independent (nv : ntfs_volume) (F G : ntfs_volume_state_bits)
    (hFG : F ≠ G) :
    NVol G (NVolSet F nv) = NVol G nv ∧ NVol G (NVolClear F nv) = NVol G nv := by
  have hval : F.val ≠ G.val := fun h => hFG (val_injective h)
  have hG := val_lt_ULONG_BITS G
  simp only [NVol_eq, NVolSet_eq, NVolClear_eq, test_nvol_flag, set_nvol_flag,
    clear_nvol_flag, test_bit_eq_testBit, testBit_set_bit, testBit_clear_bit]
  simp [hval, hG]

/-- Witness for C3: setting or clearing ReadOnly on the state word 6 leaves
the LogFileEmpty test as it was. -/
theorem state_flags_independent_witness :
    ntfs_volume_state_bits.NV_ReadOnly ≠ ntfs_volume_state_bits.NV_LogFileEmpty ∧
    (NVol .NV_LogFileEmpty (NVolSet .NV_ReadOnly ⟨6, 3, 1, 0⟩) =
        NVol .NV_LogFileEmpty ⟨6, 3, 1, 0⟩ ∧
      NVol .NV_LogFileEmpty (NVolClear .NV_ReadOnly ⟨6, 3, 1, 0⟩) =
        NVol .NV_LogFileEmpty ⟨6, 3, 1, 0⟩) :=
  ⟨by decide, state_flags_independent ⟨6, 3, 1, 0⟩ .NV_ReadOnly .NV_LogFileEmpty (by decide)⟩

/-- C4: the accessors behave as a boolean flag set: for every state word and
flag F, `NVolF` is true after `NVolSetF` and false after `NVolClearF`, and
`NVolSetF` and `NVolClearF` are idempotent. -/
theorem state_flags_flag_set (nv : ntfs_volume) (F : ntfs_volume_state_bits) :
    NVol F (NVolSet F nv) = true ∧
    NVol F (NVolClear F nv) = false ∧
    NVolSet F (NVolSet F nv) = NVolSet F nv ∧
    NVolClear F (NVolClear F nv) = NVolClear F nv := by
  have hF := val_lt_ULONG_BITS F
  simp only [NVol_eq, NVolSet_eq, NVolClear_eq, test_nvol_flag, set_nvol_flag,
    clear_nvol_flag, test_bit_eq_testBit, testBit_set_bit, testBit_clear_bit]
  refine ⟨by simp [hF], by simp [hF], ?_, ?_⟩
  · congr 1
    apply Nat.eq_of_testBit_eq
    intro i
    simp only [testBit_set_bit]
    cases decide (i < ULONG_BITS) <;> cases nv.state.testBit i <;>
      cases decide (F.val = i) <;> rfl
  · congr 1
    apply Nat.eq_of_testBit_eq
    intro i
    simp only [testBit_clear_bit]
    cases decide (i < ULONG_BITS) <;> cases nv.state.testBit i <;>
      cases decide (F.val = i) <;> rfl

/-- C10: starting from a zeroed state word, after any finite sequence of
`NVolSet*` and `NVolClear*` updates the state is below 16 and equals the sum,
over the flags that test true, of 2 to the power of the flag's enum index. -/
theorem state_word_low_four_bits (ops : List NVolOp) (major minor flags : Nat) :
    (NVolOp.run ops ⟨0, major, minor, flags⟩).state < 16 ∧
    (NVolOp.run ops ⟨0, major, minor, flags⟩).state =
      (if NVolReadOnly (NVolOp.run ops ⟨0, major, minor, flags⟩)
        then 2 ^ ntfs_volume_state_bits.NV_ReadOnly.val else 0) +
      (if NVolCaseSensitive (NVolOp.run ops ⟨0, major, minor, flags⟩)
        then 2 ^ ntfs_volume_state_bits.NV_CaseSensitive.val else 0) +
      (if NVolLogFileEmpty (NVolOp.run ops ⟨0, major, minor, flags⟩)
        then 2 ^ ntfs_volume_state_bits.NV_LogFileEmpty.val else 0) +
      (if NVolNoATime (NVolOp.run ops ⟨0, major, minor, flags⟩)
        then 2 ^ ntfs_volume_state_bits.NV_NoATime.val else 0) := by
  have hlt : (NVolOp.run ops ⟨0, major, minor, flags⟩).state < 16 :=
    run_state_lt_16 ops ⟨0, major, minor, flags⟩ (show (0 : Nat) < 16 by decide)
  exact ⟨hlt, state_eq_sum_of_lt_16 _ hlt⟩

/-! ## Theorems: journal reset -/

/-- On a volume that is not read-only the reset succeeds, installs the clean
marker and sets the LogFileEmpty flag. -/
theorem logfile_reset_writable (clean : List Nat) (vol : ntfs_volume)
    (logfile : List Nat) (hrw : NVolReadOnly vol = false) :
    (ntfs_logfile_reset clean vol logfile).result = .ok () ∧
    (ntfs_logfile_reset clean vol logfile).logfile = clean ∧
    NVolLogFileEmpty (ntfs_logfile_reset clean vol logfile).vol = true := by
  have h := test_after_set_nvol_flag vol .NV_LogFileEmpty
  simp only [ntfs_logfile_reset, hrw, Bool.false_eq_true, if_false]
  exact ⟨trivial, trivial, h⟩

/-- C7: on a volume whose ReadOnly flag is set, `ntfs_logfile_reset` fails
with a read-only violation, leaves the `$LogFile` content as it was, and
leaves the state word, hence the LogFileEmpty flag, as it was. -/
theorem logfile_reset_read_only (clean : List Nat) (vol : ntfs_volume)
    (logfile : List Nat) (hro : NVolReadOnly vol = true) :
    (ntfs_logfile_reset clean vol logfile).result = .error .ReadOnlyViolation ∧
    (ntfs_logfile_reset clean vol logfile).logfile = logfile ∧
    (ntfs_logfile_reset clean vol logfile).vol = vol ∧
    NVolLogFileEmpty (ntfs_logfile_reset clean vol logfile).vol = NVolLogFileEmpty vol := by
  simp [ntfs_logfile_reset, hro]

/-- Witness for C7: a read-only version 3.1 volume whose journal is not
empty. -/
theorem logfile_reset_read_only_witness :
    NVolReadOnly ⟨1, 3, 1, 0⟩ = true ∧
    ((ntfs_logfile_reset [255, 255] ⟨1, 3, 1, 0⟩ [82, 83, 84, 82]).result =
        .error .ReadOnlyViolation ∧
      (ntfs_logfile_reset [255, 255] ⟨1, 3, 1, 0⟩ [82, 83, 84, 82]).logfile =
        [82, 83, 84, 82] ∧
      (ntfs_logfile_reset [255, 255] ⟨1, 3, 1, 0⟩ [82, 83, 84, 82]).vol = ⟨1, 3, 1, 0⟩ ∧
      NVolLogFileEmpty (ntfs_logfile_reset [255, 255] ⟨1, 3, 1, 0⟩ [82, 83, 84, 82]).vol =
        NVolLogFileEmpty ⟨1, 3, 1, 0⟩) :=
  ⟨by decide, logfile_reset_read_only [255, 255] ⟨1, 3, 1, 0⟩ [82, 83, 84, 82] (by decide)⟩

end NtfsVolume
